import Mathlib

/-!
Shallow embedding of the ThatSkyLoader Vulkan layer and module loader
(src/src/layer.cpp, src/src/mod_loader.cpp), used to settle the claims
about the interception shim, the overlay render pipeline and the module
manager.  Machine integers are modelled as `Int`/`Nat`; `VkResult` values
are `Int` with the concrete Vulkan error codes; fallible external calls
(file access, `LoadLibraryA`, module hooks) are modelled by explicit
inputs describing their outcome; observable side effects (hook
invocations, fence operations, queue submissions, chained present calls,
error logging) are collected in event traces.
-/

namespace SkyLoader

/-- VkResult success code (0 in vulkan_core.h). -/
def VK_SUCCESS : Int := 0

/-- VkResult code VK_ERROR_OUT_OF_HOST_MEMORY (-1 in vulkan_core.h). -/
def VK_ERROR_OUT_OF_HOST_MEMORY : Int := -1

/-- VkResult error code returned by the layer when a required loader
chain link is absent, and by the bounds checks in the present path
(-3 in vulkan_core.h). -/
def VK_ERROR_INIT_FAILED : Int := -3

/-! ## Module manager data model (src/src/mod_loader.cpp)

The struct declarations (`ModInfo`, `ModItem`) live in
`src/include/mod_loader.h`, which is not part of the source tree given;
their fields are reconstructed from the spec's ModuleRecord / Module ABI
description (spec.md section 3 and 6) and from every use in
mod_loader.cpp.  A hook export is modelled as `Option Bool`:
`none` means the export is absent, `some true` means present and the
invocation returns normally, `some false` means present and the
invocation raises an exception (caught at the manager boundary in the
C++ code).  `GetModInfo` is modelled as `Option (Option ModInfo)`:
absent, present-but-raising, or present returning a metadata block. -/

/-- Metadata block filled by a module's GetModInfo export
(name/author/description/version, spec.md section 6). -/
structure ModInfo where
  name : String
  author : String
  description : String
  version : String
deriving DecidableEq, Repr

/-- The empty metadata returned for invalid indices
(static ModInfo emptyInfo, mod_loader.cpp:394). -/
def emptyInfo : ModInfo := ⟨"", "", "", ""⟩

/-- One loaded module's record: native handle, the optional lifecycle
hooks bound by GetProcAddress, the metadata block and the enabled flag
(ModItem in the header; fields per its uses in mod_loader.cpp). -/
structure ModItem where
  hModule : Nat
  start : Option Bool
  onEnable : Option Bool
  onDisable : Option Bool
  getInfo : Option (Option ModInfo)
  render : Option Bool
  info : ModInfo
  enabled : Bool
deriving DecidableEq, Repr

/-- Observable effects of module-manager operations: an error log line,
or the invocation of one of a module's hooks. -/
inductive ModEvent where
  | errLog
  | callStart
  | callGetInfo
  | callEnable (idx : Nat)
  | callDisable (idx : Nat)
  | callRender (idx : Nat)
deriving DecidableEq, Repr

/-- Input describing one attempt to load a module file: the outcome of
the file-attribute check, of LoadLibraryA, and which exports the library
provides together with the behaviour of their initial invocations
(mod_loader.cpp:212-321). -/
structure LoadInput where
  fileExists : Bool
  isDirectory : Bool
  loadLibOk : Bool
  hModule : Nat
  start : Option Bool
  onEnable : Option Bool
  onDisable : Option Bool
  getInfo : Option (Option ModInfo)
  render : Option Bool
deriving DecidableEq, Repr

/-- The record appended to `mods` once LoadLibraryA succeeded: the five
exports are bound (mod_loader.cpp:268-281) and, when GetModInfo is
present and returns normally, the metadata block is filled
(mod_loader.cpp:284-292; an exception from GetModInfo is caught and
leaves the metadata empty). -/
def bindModItem (inp : LoadInput) : ModItem :=
  let item0 : ModItem :=
    { hModule := inp.hModule, start := inp.start, onEnable := inp.onEnable,
      onDisable := inp.onDisable, getInfo := inp.getInfo, render := inp.render,
      info := emptyInfo, enabled := false }
  match inp.getInfo with
  | some (some i) => { item0 with info := i }
  | _ => item0

/-- ModLoader::LoadModFromFile (mod_loader.cpp:212-321).  Returns the
reported success flag, the updated module list and the event trace.
The failure branches before LoadLibraryA return false with the list
unchanged (lines 216-233, 248-262); after `mods.emplace_back(hModule)`
(line 264) the record stays in the list even when the Start hook raises
and the load is reported as failed (lines 298-308). -/
def LoadModFromFile (mods : List ModItem) (inp : LoadInput) :
    Bool × List ModItem × List ModEvent :=
  if ¬ inp.fileExists then
    (false, mods, [ModEvent.errLog])
  else if inp.isDirectory then
    (false, mods, [ModEvent.errLog])
  else if ¬ inp.loadLibOk then
    (false, mods, [ModEvent.errLog])
  else
    let item := bindModItem inp
    let mods2 := mods ++ [item]
    let infoEvs := match inp.getInfo with
      | some _ => [ModEvent.callGetInfo]
      | none => []
    match inp.start with
    | some true => (true, mods2, infoEvs ++ [ModEvent.callStart])
    | some false => (false, mods2, infoEvs ++ [ModEvent.callStart, ModEvent.errLog])
    | none => (true, mods2, infoEvs)

/-- Condition under which LoadModFromFile reaches `mods.emplace_back`
(all three early-return failure checks passed). -/
def loadRecordKept (inp : LoadInput) : Bool :=
  inp.fileExists && !inp.isDirectory && inp.loadLibOk

/-- ModLoader::UnloadAllMods (mod_loader.cpp:505-531): best-effort
disable of every enabled module with an onDisable export, release of
every handle, then `mods.clear()`. -/
def UnloadAllMods (mods : List ModItem) : List ModItem × List ModEvent :=
  ([], (List.range mods.length).flatMap fun i =>
    match mods.get? i with
    | some m => if m.enabled && m.onDisable.isSome then [ModEvent.callDisable i] else []
    | none => [])

/-- ModLoader::LoadMods (mod_loader.cpp:323-386): after the directory
check, unloads any existing mods, then attempts every .dll file
independently, counting successes and failures.  `dirOk` is the result
of EnsureModsDirectoryExists; `inputs` lists the load outcome of each
.dll file found by the directory iteration.  `loadStep` is the loop
body (mod_loader.cpp:371-380): one independent load attempt, bumping
the loaded or the failed counter. -/
def loadStep (acc : List ModItem × Nat × Nat) (inp : LoadInput) :
    List ModItem × Nat × Nat :=
  let r := LoadModFromFile acc.1 inp
  if r.1 then (r.2.1, acc.2.1 + 1, acc.2.2) else (r.2.1, acc.2.1, acc.2.2 + 1)

/-- ModLoader::LoadMods, see the comment on `loadStep`. -/
def LoadMods (mods : List ModItem) (dirOk : Bool) (inputs : List LoadInput) :
    List ModItem × Nat × Nat :=
  if ¬ dirOk then (mods, 0, 0)
  else
    let mods1 : List ModItem := if mods.isEmpty then mods else (UnloadAllMods mods).1
    inputs.foldl loadStep (mods1, 0, 0)

/-- The C++ bounds check `index < 0 || index >= static_cast<int>(mods.size())`
shared by every index-taking module-manager operation. -/
def idxOutOfRange (mods : List ModItem) (index : Int) : Bool :=
  index < 0 || (mods.length : Int) ≤ index

/-- ModLoader::GetModInfo (mod_loader.cpp:392-399): empty metadata and a
logged error for an invalid index, the module's metadata otherwise. -/
def GetModInfo (mods : List ModItem) (index : Int) : ModInfo × List ModEvent :=
  if idxOutOfRange mods index then (emptyInfo, [ModEvent.errLog])
  else
    match mods.get? index.toNat with
    | some item => (item.info, [])
    | none => (emptyInfo, [ModEvent.errLog])

/-- ModLoader::Render (mod_loader.cpp:401-414): logged error for an
invalid index; otherwise the Render hook is invoked exactly when the
module is enabled and exposes it (an exception is caught and logged). -/
def RenderMod (mods : List ModItem) (index : Int) : List ModEvent :=
  if idxOutOfRange mods index then [ModEvent.errLog]
  else
    match mods.get? index.toNat with
    | some item =>
      if item.enabled then
        match item.render with
        | some true => [ModEvent.callRender index.toNat]
        | some false => [ModEvent.callRender index.toNat, ModEvent.errLog]
        | none => []
      else []
    | none => [ModEvent.errLog]

/-- ModLoader::EnableMod (mod_loader.cpp:416-435): logged error and
no-op for an invalid index; otherwise the onEnable hook is invoked when
present and `enabled := true` is set afterwards, also when the hook is
absent; an exception raised by the hook is caught (line 432) before the
flag assignment, leaving the record unchanged. -/
def EnableMod (mods : List ModItem) (index : Int) : List ModItem × List ModEvent :=
  if idxOutOfRange mods index then (mods, [ModEvent.errLog])
  else
    match mods.get? index.toNat with
    | some item =>
      match item.onEnable with
      | some true => (mods.set index.toNat { item with enabled := true },
          [ModEvent.callEnable index.toNat])
      | some false => (mods, [ModEvent.callEnable index.toNat, ModEvent.errLog])
      | none => (mods.set index.toNat { item with enabled := true }, [])
    | none => (mods, [ModEvent.errLog])

/-- ModLoader::DisableMod (mod_loader.cpp:437-456): symmetric to
EnableMod with onDisable and `enabled := false`. -/
def DisableMod (mods : List ModItem) (index : Int) : List ModItem × List ModEvent :=
  if idxOutOfRange mods index then (mods, [ModEvent.errLog])
  else
    match mods.get? index.toNat with
    | some item =>
      match item.onDisable with
      | some true => (mods.set index.toNat { item with enabled := false },
          [ModEvent.callDisable index.toNat])
      | some false => (mods, [ModEvent.callDisable index.toNat, ModEvent.errLog])
      | none => (mods.set index.toNat { item with enabled := false }, [])
    | none => (mods, [ModEvent.errLog])

/-- ModLoader::GetModEnabled (mod_loader.cpp:458-465): a static dummy
`false` reference for an invalid index, the module's flag otherwise. -/
def GetModEnabled (mods : List ModItem) (index : Int) : Bool × List ModEvent :=
  if idxOutOfRange mods index then (false, [ModEvent.errLog])
  else
    match mods.get? index.toNat with
    | some item => (item.enabled, [])
    | none => (false, [ModEvent.errLog])

/-- ModLoader::GetModName (mod_loader.cpp:467-474): a placeholder name
and a logged error for an invalid index. -/
def GetModName (mods : List ModItem) (index : Int) : String × List ModEvent :=
  if idxOutOfRange mods index then ("<invalid mod>", [ModEvent.errLog])
  else
    match mods.get? index.toNat with
    | some item => (item.info.name, [])
    | none => ("<invalid mod>", [ModEvent.errLog])

/-- ModLoader::ReloadMod (mod_loader.cpp:533-566): logged error and
`false` for an invalid index; otherwise captures the path (`getPathOk`
is the outcome of GetModuleFileNameA; its failure raises and is caught,
line 542-543 and 562-564, leaving the list unchanged), best-effort
disables, frees the handle, erases the record and re-runs the load
sequence (`reload` describes the outcome of loading the same path; an
exception raised by the onDisable hook is caught by the outer handler
before the erase, leaving the list unchanged). -/
def ReloadMod (mods : List ModItem) (index : Int) (getPathOk : Bool)
    (reload : LoadInput) : Bool × List ModItem × List ModEvent :=
  if idxOutOfRange mods index then (false, mods, [ModEvent.errLog])
  else
    match mods.get? index.toNat with
    | some item =>
      if ¬ getPathOk then (false, mods, [ModEvent.errLog])
      else
        let disEvs := if item.enabled && item.onDisable.isSome
          then [ModEvent.callDisable index.toNat] else []
        if item.enabled && item.onDisable == some false then
          (false, mods, disEvs ++ [ModEvent.errLog])
        else
          let mods2 := mods.eraseIdx index.toNat
          let r := LoadModFromFile mods2 reload
          (r.1, r.2.1, disEvs ++ r.2.2)
    | none => (false, mods, [ModEvent.errLog])

/-! ## Interception shim: instance/device creation (src/src/layer.cpp)

The dispatch registry is modelled as the list of stored object keys
(the dispatch-table contents are function pointers, abstracted away);
what the claims need is the returned `VkResult` as a function of the
chain-walk outcome and of the result of the next layer's create call. -/

/-- Input to ModLoader_CreateInstance: whether the pNext chain walk
found the loader link record (layer.cpp:588-601), the VkResult produced
by the next layer's vkCreateInstance (layer.cpp:609), and the key of the
created instance. -/
structure InstanceCreateInput where
  chainLinkFound : Bool
  underlyingResult : Int
  instanceKey : Nat
deriving DecidableEq, Repr

/-- ModLoader_CreateInstance (layer.cpp:583-623).  Without the chain
link record it returns VK_ERROR_INITIALIZATION_FAILED (line 600).
Otherwise the underlying create call is made (its VkResult is bound to
the local `ret`, line 609, which is never read again), the dispatch
table is stored under the new instance's key (lines 612-621), and
VK_SUCCESS is returned unconditionally (line 622). -/
def ModLoader_CreateInstance (registry : List Nat) (inp : InstanceCreateInput) :
    Int × List Nat :=
  if ¬ inp.chainLinkFound then (VK_ERROR_INIT_FAILED, registry)
  else
    let _ret := inp.underlyingResult
    (VK_SUCCESS, registry ++ [inp.instanceKey])

/-- The requested queues of one VkDeviceQueueCreateInfo entry
(queueFamilyIndex and queueCount; layer.cpp:126-142 reads only these). -/
structure QueueCreateInfo where
  queueFamilyIndex : Nat
  queueCount : Nat
deriving DecidableEq, Repr

/-- The device-side state the layer keeps per device: the designated
primary/graphic queue and the list of created queue contexts.  A queue
handle is identified by the pair (family index, queue index) the code
passes to GetDeviceQueue (layer.cpp:130-132). -/
structure DeviceData where
  graphic_queue : Option (Nat × Nat)
  queues : List (Nat × Nat)
deriving DecidableEq, Repr

/-- Input to ModLoader_CreateDevice: chain-walk outcome
(layer.cpp:638-651), VkResult of the next layer's vkCreateDevice
(layer.cpp:660), the new device's key, and the queue create infos. -/
structure DeviceCreateInput where
  chainLinkFound : Bool
  underlyingResult : Int
  deviceKey : Nat
  queueCreateInfos : List QueueCreateInfo
deriving DecidableEq, Repr

/-- new_queue_data (layer.cpp:113-119): fills the QueueData for the
queue and unconditionally designates it as the device's graphic queue
(line 117), returning the queue record. -/
def new_queue_data (queue : Nat × Nat) (d : DeviceData) : DeviceData × (Nat × Nat) :=
  ({ d with graphic_queue := some queue }, queue)

/-- DeviceMapQueues (layer.cpp:126-142): for every create-info entry and
every queue index below its queueCount, retrieves the queue, binds the
loader data and appends `new_queue_data(queue, data)` to the device's
queue list. -/
def DeviceMapQueues (d : DeviceData) (infos : List QueueCreateInfo) : DeviceData :=
  infos.foldl
    (fun dAcc info =>
      (List.range info.queueCount).foldl
        (fun d2 j =>
          let r := new_queue_data (info.queueFamilyIndex, j) d2
          { r.1 with queues := r.1.queues ++ [r.2] })
        dAcc)
    d

/-- One iteration of DeviceMapQueues' inner loop body (layer.cpp:139):
`data->queues.push_back(new_queue_data(queue, data))`. -/
def stepQueue (d : DeviceData) (q : Nat × Nat) : DeviceData :=
  let r := new_queue_data q d
  { r.1 with queues := r.1.queues ++ [r.2] }

/-- The queue family/index pairs enumerated by DeviceMapQueues, in
enumeration order (outer loop over create infos, inner loop over queue
indices). -/
def enumQueues (infos : List QueueCreateInfo) : List (Nat × Nat) :=
  infos.flatMap fun info =>
    (List.range info.queueCount).map fun j => (info.queueFamilyIndex, j)

/-- ModLoader_CreateDevice (layer.cpp:631-688).  Without the chain link
record it returns VK_ERROR_INITIALIZATION_FAILED (line 650).  Otherwise
the underlying create call is made (its VkResult bound to `ret`,
line 660, never read again), the dispatch table is fetched and stored,
DeviceMapQueues populates the queue contexts (line 680) and VK_SUCCESS
is returned unconditionally (line 687).  Returns the VkResult, the
updated registry and the device's queue data. -/
def ModLoader_CreateDevice (registry : List Nat) (inp : DeviceCreateInput) :
    Int × List Nat × DeviceData :=
  if ¬ inp.chainLinkFound then
    (VK_ERROR_INIT_FAILED, registry, { graphic_queue := none, queues := [] })
  else
    let _ret := inp.underlyingResult
    let data := DeviceMapQueues { graphic_queue := none, queues := [] } inp.queueCreateInfos
    (VK_SUCCESS, registry ++ [inp.deviceKey], data)

/-! ## Proc-address resolution (src/src/layer.cpp:717-750) -/

/-- Result of a proc-address lookup: one of this layer's own entry
points (named), or a forward to the next layer's resolver looked up from
the stored dispatch table. -/
inductive ProcResolution where
  | layerEntry (fn : String)
  | forwardNext
deriving DecidableEq, Repr

/-- ModLoader_GetDeviceProcAddr (layer.cpp:719-732): the GETPROCADDR
macro compares `pName` with strcmp against each intercepted name and
returns the layer's entry point on an exact match; everything else is
forwarded to the next layer's GetDeviceProcAddr from the stored
dispatch table. -/
def ModLoader_GetDeviceProcAddr (pName : String) : ProcResolution :=
  if pName = "vkGetDeviceProcAddr" then .layerEntry "ModLoader_GetDeviceProcAddr"
  else if pName = "vkCreateDevice" then .layerEntry "ModLoader_CreateDevice"
  else if pName = "vkDestroyDevice" then .layerEntry "ModLoader_DestroyDevice"
  else if pName = "vkQueuePresentKHR" then .layerEntry "ModLoader_QueuePresentKHR"
  else if pName = "vkCreateSwapchainKHR" then .layerEntry "ModLoader_CreateSwapchainKHR"
  else .forwardNext

/-- ModLoader_GetInstanceProcAddr (layer.cpp:734-750): exact strcmp
matches for three instance-chain names and three device-chain names;
everything else (including vkQueuePresentKHR and vkCreateSwapchainKHR)
is forwarded to the next layer's GetInstanceProcAddr. -/
def ModLoader_GetInstanceProcAddr (pName : String) : ProcResolution :=
  if pName = "vkGetInstanceProcAddr" then .layerEntry "ModLoader_GetInstanceProcAddr"
  else if pName = "vkCreateInstance" then .layerEntry "ModLoader_CreateInstance"
  else if pName = "vkDestroyInstance" then .layerEntry "ModLoader_DestroyInstance"
  else if pName = "vkGetDeviceProcAddr" then .layerEntry "ModLoader_GetDeviceProcAddr"
  else if pName = "vkCreateDevice" then .layerEntry "ModLoader_CreateDevice"
  else if pName = "vkDestroyDevice" then .layerEntry "ModLoader_DestroyDevice"
  else .forwardNext

/-- Whether a proc-address lookup resolved to one of this layer's own
entry points. -/
def ProcResolution.isLayer : ProcResolution → Bool
  | .layerEntry _ => true
  | .forwardNext => false

/-- The names ModLoader_GetDeviceProcAddr handles itself
(layer.cpp:722-726). -/
def deviceInterceptNames : List String :=
  ["vkGetDeviceProcAddr", "vkCreateDevice", "vkDestroyDevice",
   "vkQueuePresentKHR", "vkCreateSwapchainKHR"]

/-- The names ModLoader_GetInstanceProcAddr handles itself
(layer.cpp:737-744). -/
def instanceInterceptNames : List String :=
  ["vkGetInstanceProcAddr", "vkCreateInstance", "vkDestroyInstance",
   "vkGetDeviceProcAddr", "vkCreateDevice", "vkDestroyDevice"]

/-- Every function name the layer intercepts somewhere (the set named by
the spec: instance/device create and destroy, both proc-address
resolvers, swapchain creation and queue-present). -/
def allInterceptNames : List String :=
  ["vkGetInstanceProcAddr", "vkCreateInstance", "vkDestroyInstance",
   "vkGetDeviceProcAddr", "vkCreateDevice", "vkDestroyDevice",
   "vkQueuePresentKHR", "vkCreateSwapchainKHR"]

/-! ## Overlay render targets (src/src/layer.cpp:370-581, 764-824)

Created GPU objects are identified by a fresh-handle counter so that
object identity across recreations is observable; the per-image command
pools, buffers, fences and semaphores are created alongside the
framebuffers and destroyed together with them, so the framebuffer list
stands for the whole per-image slot set. -/

/-- The global render-target state the claims are about: whether
g_Device has been recorded (CleanupRenderTarget early-exits while it is
VK_NULL_HANDLE, layer.cpp:766-768), the render pass handle
(g_RenderPass), the per-image framebuffer handles, the descriptor pool
(g_DescriptorPool) and the fresh-handle counter. -/
structure RTState where
  gDeviceSet : Bool
  renderPass : Option Nat
  framebuffers : List Nat
  descriptorPool : Option Nat
  nextHandle : Nat
deriving DecidableEq, Repr

/-- CreateRenderTarget (layer.cpp:370-581): truncates the image count to
the fixed capacity 8 (lines 382-385), creates one command pool, command
buffer, signalled fence and two semaphores per image (lines 398-463,
handles elided here), creates the render pass only when g_RenderPass is
VK_NULL_HANDLE (line 466), creates one image view and framebuffer per
image (lines 500-550) and creates the descriptor pool only when absent
(line 553). -/
def CreateRenderTarget (s : RTState) (imageCount : Nat) : RTState :=
  let n := min imageCount 8
  let rp := match s.renderPass with
    | some r => (some r, s.nextHandle)
    | none => (some s.nextHandle, s.nextHandle + 1)
  let fbs := (List.range n).map fun i => rp.2 + i
  let dp := match s.descriptorPool with
    | some d => (some d, rp.2 + n)
    | none => (some (rp.2 + n), rp.2 + n + 1)
  { s with renderPass := rp.1, framebuffers := fbs,
           descriptorPool := dp.1, nextHandle := dp.2 }

/-- CleanupRenderTarget (layer.cpp:764-824): a no-op while g_Device is
VK_NULL_HANDLE (lines 766-768); otherwise destroys every per-frame
fence, command buffer/pool, image view and framebuffer (lines 771-805),
the semaphores (lines 808-817) and the render pass, resetting
g_RenderPass to VK_NULL_HANDLE (lines 820-823).  The descriptor pool is
not touched (it is destroyed only in CleanupDeviceVulkan). -/
def CleanupRenderTarget (s : RTState) : RTState :=
  if ¬ s.gDeviceSet then s
  else { s with framebuffers := [], renderPass := none }

/-! ## The present path (src/src/layer.cpp:874-1089)

RenderImGui_Vulkan's per-surface loop, with its observable fence,
submission and chained-present operations recorded as events.  The
underlying wait/reset/submit calls are modelled as succeeding (their
error early-returns are not on any claim's path); the VkResult each
re-issued present returns is an input (`chainResult`). -/

/-- Observable operations of the present loop.  `slot` is the
host-provided image index selecting the frame-resources slot. -/
inductive VkEvent where
  | createTarget
  | fenceWait (slot : Nat)
  | fenceReset (slot : Nat)
  | cmdRecord (slot : Nat)
  | submitSignalOnly (slot : Nat)
  | submitGraphics (slot : Nat)
  | presentChain (slot : Nat)
deriving DecidableEq, Repr

/-- The frame-resources slot an event operates on (`none` for the
render-target creation, which fills slots 0..imageCount-1 rather than a
single one). -/
def VkEvent.slot : VkEvent → Option Nat
  | .createTarget => none
  | .fenceWait i => some i
  | .fenceReset i => some i
  | .cmdRecord i => some i
  | .submitSignalOnly i => some i
  | .submitGraphics i => some i
  | .presentChain i => some i

/-- True exactly for the chained present event. -/
def VkEvent.isPresent : VkEvent → Bool
  | .presentChain _ => true
  | _ => false

/-- True exactly for the fence wait event. -/
def VkEvent.isFenceWait : VkEvent → Bool
  | .fenceWait _ => true
  | _ => false

/-- True exactly for the fence reset event. -/
def VkEvent.isFenceReset : VkEvent → Bool
  | .fenceReset _ => true
  | _ => false

/-- Result of the present loop: the VkResult returned to the host, the
event trace, the (position, VkResult) pairs written into the
host-provided pResults array, and whether the render target exists
afterwards. -/
structure RenderOut where
  result : Int
  events : List VkEvent
  written : List (Nat × Int)
  targetCreated : Bool
deriving DecidableEq, Repr

/-- The per-surface loop of RenderImGui_Vulkan (layer.cpp:901-1086).
Arguments mirror the C++ state: `sg` is DoesQueueSupportGraphic's
answer for the presenting queue, `wsc` is pPresentInfo's
waitSemaphoreCount, `rr` whether pPresentInfo->pResults is non-null,
`chainResult i` the VkResult of the re-issued present for surface `i`.
The list argument holds the remaining image indices, `i` the loop
counter, `acc` the running `result` local, `tc` whether
g_Frames[0].Framebuffer is already non-null.  Per surface: the render
target is created if absent (lines 904-907), an image index at or above
the capacity 8 aborts the whole call with
VK_ERROR_INITIALIZATION_FAILED (lines 909-913), the slot's fence is
waited on and reset and its command buffer re-recorded (lines 918-1004).
With no wait semaphores to forward (`i` past the first surface, or a
present with none) and a presenting queue that does not support
graphics, two submissions are issued and no present is re-issued
(lines 1009-1045); otherwise one submission is issued, the present is
re-issued for the surface waiting on the slot's signalled semaphore,
its VkResult is written into pResults when requested and folded into
the running result (lines 1046-1085). -/
def renderSurfaces (sg : Bool) (wsc : Nat) (rr : Bool) (chainResult : Nat → Int) :
    List Nat → Nat → Int → Bool → RenderOut
  | [], _i, acc, tc => ⟨acc, [], [], tc⟩
  | idx :: rest, i, acc, tc =>
    let createEvs : List VkEvent := if tc then [] else [.createTarget]
    if 8 ≤ idx then
      ⟨VK_ERROR_INIT_FAILED, createEvs, [], true⟩
    else
      let waitSemaphoresCount := if i = 0 then wsc else 0
      let preEvs : List VkEvent := [.fenceWait idx, .fenceReset idx, .cmdRecord idx]
      if waitSemaphoresCount = 0 && !sg then
        let tail := renderSurfaces sg wsc rr chainResult rest (i + 1) acc true
        ⟨tail.result,
         createEvs ++ preEvs ++ [.submitSignalOnly idx, .submitGraphics idx] ++ tail.events,
         tail.written, tail.targetCreated⟩
      else
        let c := chainResult i
        let w : List (Nat × Int) := if rr then [(i, c)] else []
        let acc2 := if c ≠ 0 && acc == 0 then c else acc
        let tail := renderSurfaces sg wsc rr chainResult rest (i + 1) acc2 true
        ⟨tail.result,
         createEvs ++ preEvs ++ [.submitGraphics idx, .presentChain idx] ++ tail.events,
         w ++ tail.written, tail.targetCreated⟩

/-! ## Theorems -/

/-- C1: the claim says CreateInstance and CreateDevice return the result
code of the next layer's create call unchanged.  The code computes that
result (`ret`) but returns VK_SUCCESS unconditionally
(layer.cpp:609/622 and 660/687): with the chain link present and an
underlying VK_ERROR_OUT_OF_HOST_MEMORY failure, both entry points still
report VK_SUCCESS to the host. -/
theorem C1_create_result_not_propagated :
    (ModLoader_CreateInstance [] ⟨true, VK_ERROR_OUT_OF_HOST_MEMORY, 7⟩).1 = VK_SUCCESS ∧
    (ModLoader_CreateDevice [] ⟨true, VK_ERROR_OUT_OF_HOST_MEMORY, 7, [⟨0, 1⟩]⟩).1 = VK_SUCCESS ∧
    VK_ERROR_OUT_OF_HOST_MEMORY ≠ VK_SUCCESS := by
  refine ⟨rfl, rfl, by decide⟩

/-- Folding DeviceMapQueues' nested loops into a single fold over the
enumerated queue list. -/
theorem DeviceMapQueues_eq_foldl (d : DeviceData) (infos : List QueueCreateInfo) :
    DeviceMapQueues d infos = (enumQueues infos).foldl stepQueue d := by
  induction infos generalizing d with
  | nil => rfl
  | cons info rest ih =>
    simp only [DeviceMapQueues, enumQueues, List.flatMap_cons, List.foldl_cons,
      List.foldl_append, List.foldl_map] at *
    exact ih _

/-- The final state of folding `stepQueue` over a queue list: the queues
are appended in order and the designated graphic queue is the last queue
processed. -/
theorem foldl_stepQueue (qs : List (Nat × Nat)) (d : DeviceData) :
    ((qs.foldl stepQueue d).queues = d.queues ++ qs) ∧
    ((qs.foldl stepQueue d).graphic_queue =
      if qs = [] then d.graphic_queue else qs.getLast?) := by
  induction qs generalizing d with
  | nil => simp
  | cons q qs ih =>
    rcases ih (stepQueue d q) with ⟨h1, h2⟩
    have hs : stepQueue d q = ⟨some q, d.queues ++ [q]⟩ := rfl
    rw [hs] at h1 h2
    rw [List.foldl_cons, hs]
    refine ⟨by rw [h1]; simp, ?_⟩
    rcases qs with _ | ⟨q2, qs2⟩
    · simp
    · simpa [List.getLast?_cons_cons] using h2

/-- C3 counterexample: for a device created with one queue family
requesting two queues, the first enumerated queue is (family 0, index 0)
but the designated primary/graphic queue is the second one
(family 0, index 1): new_queue_data overwrites `graphic_queue` for every
queue (layer.cpp:117), so the last enumerated queue wins, not the
first. -/
theorem C3_first_queue_counterexample :
    enumQueues [⟨0, 2⟩] = [(0, 0), (0, 1)] ∧
    (ModLoader_CreateDevice [] ⟨true, 0, 1, [⟨0, 2⟩]⟩).2.2.graphic_queue = some (0, 1) ∧
    some ((0 : Nat), (1 : Nat)) ≠ some ((0 : Nat), (0 : Nat)) := by
  refine ⟨rfl, rfl, by decide⟩

/-- C3 amended: after DeviceMapQueues, the device's queue list is the
enumerated family/index combinations in order, and the designated
primary/graphic queue is the LAST enumerated queue (the QueueContext
created last), for every device created with one or more queues. -/
theorem C3_primary_is_last_queue (d : DeviceData) (infos : List QueueCreateInfo)
    (hne : enumQueues infos ≠ []) :
    (DeviceMapQueues d infos).queues = d.queues ++ enumQueues infos ∧
    (DeviceMapQueues d infos).graphic_queue = (enumQueues infos).getLast? := by
  rw [DeviceMapQueues_eq_foldl]
  rcases foldl_stepQueue (enumQueues infos) d with ⟨h1, h2⟩
  exact ⟨h1, by rwa [if_neg hne] at h2⟩

/-- C3 witness: the amended statement evaluated for a device requesting
queues (0,0), (0,1) and (1,0). -/
theorem C3_primary_is_last_queue_witness :
    (DeviceMapQueues ⟨none, []⟩ [⟨0, 2⟩, ⟨1, 1⟩]).graphic_queue =
      (enumQueues [⟨0, 2⟩, ⟨1, 1⟩]).getLast? :=
  (C3_primary_is_last_queue ⟨none, []⟩ [⟨0, 2⟩, ⟨1, 1⟩] (by decide)).2

/-- C4 counterexample: starting from the state of the first overlay draw
(device known, no render target), creating the render target makes
render pass 0; a surface recreation (CleanupRenderTarget, as invoked by
ModLoader_CreateSwapchainKHR, layer.cpp:704) destroys it
(layer.cpp:820-823), and the next render-target creation creates a
different render pass object — the render pass is not reused across
surface recreations. -/
theorem C4_render_pass_replaced_counterexample :
    (CreateRenderTarget ⟨true, none, [], none, 0⟩ 2).renderPass = some 0 ∧
    (CleanupRenderTarget (CreateRenderTarget ⟨true, none, [], none, 0⟩ 2)).renderPass = none ∧
    (CreateRenderTarget (CleanupRenderTarget
        (CreateRenderTarget ⟨true, none, [], none, 0⟩ 2)) 2).renderPass = some 4 ∧
    some 4 ≠ some 0 := by
  refine ⟨rfl, rfl, rfl, by decide⟩

/-- C4 amended: the render pass is reused only across render-target
creations with no intervening cleanup (the g_RenderPass null guard,
layer.cpp:466); once a device is known, every render-target invalidation
destroys the render pass and the following creation installs a fresh
one, while framebuffers are recreated (one per surface image, capacity
capped at 8) on every recreation. -/
theorem C4_render_pass_lifecycle (s : RTState) (r n m : Nat)
    (hdev : s.gDeviceSet = true) (hrp : s.renderPass = some r)
    (hlt : r < s.nextHandle) :
    (CreateRenderTarget s n).renderPass = some r ∧
    (CleanupRenderTarget s).renderPass = none ∧
    (CreateRenderTarget (CleanupRenderTarget s) m).renderPass = some s.nextHandle ∧
    s.nextHandle ≠ r ∧
    (CreateRenderTarget (CleanupRenderTarget s) m).framebuffers.length = min m 8 := by
  refine ⟨?_, ?_, ?_, ?_, ?_⟩
  · simp [CreateRenderTarget, hrp]
  · simp [CleanupRenderTarget, hdev]
  · simp [CreateRenderTarget, CleanupRenderTarget, hdev]
  · omega
  · simp [CreateRenderTarget, CleanupRenderTarget, hdev]

/-- C4 witness: the lifecycle statement evaluated at the state produced
by the first render-target creation. -/
theorem C4_render_pass_lifecycle_witness :
    (CreateRenderTarget (CleanupRenderTarget ⟨true, some 0, [1, 2], some 3, 4⟩) 2).renderPass
      = some 4 :=
  (C4_render_pass_lifecycle ⟨true, some 0, [1, 2], some 3, 4⟩ 0 2 2 rfl rfl
    (by decide)).2.2.1

/-- C5 counterexample: vkQueuePresentKHR is a name this layer intercepts
(the device-level resolver returns the layer's own entry point for it),
but the instance-level resolver forwards it to the next layer instead of
returning the layer's entry point (layer.cpp:736-749 lists only six
names, without vkQueuePresentKHR and vkCreateSwapchainKHR). -/
theorem C5_instance_resolver_counterexample :
    "vkQueuePresentKHR" ∈ allInterceptNames ∧
    ModLoader_GetDeviceProcAddr "vkQueuePresentKHR" =
      ProcResolution.layerEntry "ModLoader_QueuePresentKHR" ∧
    ModLoader_GetInstanceProcAddr "vkQueuePresentKHR" = ProcResolution.forwardNext := by
  refine ⟨by decide, rfl, ?_⟩
  decide

/-- C5 amended: with exact, case-sensitive name matching, the
device-level resolver returns this layer's own entry point exactly for
its five device-chain names and forwards every other name to the next
layer's resolver from the stored dispatch table; the instance-level
resolver returns the layer's own entry point exactly for its six names
(the three instance-chain names plus vkGetDeviceProcAddr,
vkCreateDevice and vkDestroyDevice) and forwards everything else —
including the intercepted names vkQueuePresentKHR and
vkCreateSwapchainKHR. -/
theorem C5_resolver_coverage (name : String) :
    ((ModLoader_GetDeviceProcAddr name).isLayer = true ↔ name ∈ deviceInterceptNames) ∧
    ((ModLoader_GetInstanceProcAddr name).isLayer = true ↔ name ∈ instanceInterceptNames) := by
  constructor
  · unfold ModLoader_GetDeviceProcAddr
    split_ifs with h1 h2 h3 h4 h5 <;>
      simp_all [deviceInterceptNames, ProcResolution.isLayer]
  · unfold ModLoader_GetInstanceProcAddr
    split_ifs with h1 h2 h3 h4 h5 h6 <;>
      simp_all [instanceInterceptNames, ProcResolution.isLayer]

/-- C2: the claim says every processed surface gets exactly one fence
wait/reset and one re-issued present on BOTH submission paths.  On the
path taken when no host wait semaphores are forwarded and the presenting
queue does not support graphics submission (layer.cpp:1009-1045), the
code issues its two queue submissions but never re-issues the present
and never writes pResults: presenting one surface (image index 0,
results array supplied) waits and resets one fence yet issues zero
chained present calls. -/
theorem C2_transfer_queue_path_drops_present :
    ((renderSurfaces false 0 true (fun _ => 0) [0] 0 0 true).events.countP
        VkEvent.isFenceWait = 1) ∧
    ((renderSurfaces false 0 true (fun _ => 0) [0] 0 0 true).events.countP
        VkEvent.isFenceReset = 1) ∧
    ((renderSurfaces false 0 true (fun _ => 0) [0] 0 0 true).events.countP
        VkEvent.isPresent = 0) ∧
    (renderSurfaces false 0 true (fun _ => 0) [0] 0 0 true).written = [] := by
  refine ⟨rfl, rfl, rfl, rfl⟩

/-- Events of the conditional render-target creation touch no
frame-resources slot. -/
theorem mem_createTargetEvs {e : VkEvent} {tc : Bool}
    (h : e ∈ (if tc = true then ([] : List VkEvent) else [VkEvent.createTarget])) :
    e.slot = none := by
  split at h <;> simp_all [VkEvent.slot]

/-- C8: a present call whose surface list contains an image index at or
above the frame-resources capacity 8 (every index before it in bounds)
returns the fatal VK_ERROR_INITIALIZATION_FAILED, and every fence wait,
fence reset, command-buffer recording, submission and chained present in
its trace is for one of the in-bounds indices processed before the
failing surface — no per-frame slot state is touched for the failing
index or for the surfaces after it, so later present calls find the
slots as a successful call would have left them. -/
theorem C8_oob_index_aborts (sg : Bool) (wsc : Nat) (rr : Bool) (cr : Nat → Int)
    (pre post : List Nat) (idx : Nat) (i0 : Nat) (acc : Int) (tc : Bool)
    (hpre : ∀ j ∈ pre, j < 8) (hidx : 8 ≤ idx) :
    ((renderSurfaces sg wsc rr cr (pre ++ idx :: post) i0 acc tc).result =
      VK_ERROR_INIT_FAILED) ∧
    (∀ e ∈ (renderSurfaces sg wsc rr cr (pre ++ idx :: post) i0 acc tc).events,
      ∀ j, e.slot = some j → j ∈ pre) ∧
    ((renderSurfaces sg wsc rr cr (pre ++ idx :: post) i0 acc tc).targetCreated = true) := by
  induction pre generalizing i0 acc tc with
  | nil =>
    refine ⟨?_, ?_, ?_⟩ <;> simp only [List.nil_append, renderSurfaces, if_pos hidx]
    · intro e he j hj
      rw [mem_createTargetEvs he] at hj
      exact Option.noConfusion hj
  | cons p pre ih =>
    have hp : p < 8 := hpre p (List.mem_cons_self p pre)
    have hpre' : ∀ j ∈ pre, j < 8 := fun j hj => hpre j (List.mem_cons_of_mem p hj)
    simp only [List.cons_append, renderSurfaces, if_neg (by omega : ¬ 8 ≤ p)]
    split <;> split
    all_goals
      obtain ⟨h1, h2, h3⟩ := ih (i0 + 1) _ true hpre'
      refine ⟨h1, ?_, h3⟩
      intro e he j hj
      simp only [List.append_assoc, List.mem_append, List.mem_cons,
        List.not_mem_nil, or_false] at he
      rcases he with he | (he | he | he) | (he | he) | he
      all_goals
        first
          | (rw [mem_createTargetEvs he] at hj; exact Option.noConfusion hj)
          | (subst he
             simp only [VkEvent.slot, Option.some.injEq] at hj
             subst hj
             exact List.mem_cons_self p pre)
          | exact List.mem_cons_of_mem p (h2 e he j hj)

/-- C8 witness: a two-surface present whose second image index is 9 on a
graphics-capable queue. -/
theorem C8_oob_index_aborts_witness :
    (renderSurfaces true 0 false (fun _ => 0) ([0] ++ 9 :: []) 0 0 true).result =
      VK_ERROR_INIT_FAILED :=
  (C8_oob_index_aborts true 0 false (fun _ => 0) [0] [] 9 0 0 true
    (by decide) (by decide)).1

/-- Characterization of one load attempt: the module list grows by the
bound record exactly when LoadLibraryA was reached and succeeded, and
the load is reported successful exactly when additionally the Start hook
did not raise. -/
theorem LoadModFromFile_characterization (mods : List ModItem) (inp : LoadInput) :
    ((LoadModFromFile mods inp).2.1 =
      mods ++ (if loadRecordKept inp then [bindModItem inp] else [])) ∧
    ((LoadModFromFile mods inp).1 = true ↔
      (loadRecordKept inp = true ∧ inp.start ≠ some false)) := by
  rcases inp with ⟨fe, dir, ll, h, st, oe, od, gi, r⟩
  rcases fe <;> rcases dir <;> rcases ll <;> rcases st with _ | (_ | _) <;>
    simp [LoadModFromFile, loadRecordKept]

/-- The LoadMods loop appends each input's records independently. -/
theorem foldl_loadStep (inputs : List LoadInput) (ms : List ModItem) (lc fc : Nat) :
    (inputs.foldl loadStep (ms, lc, fc)).1 =
      ms ++ inputs.flatMap (fun j => if loadRecordKept j then [bindModItem j] else []) := by
  induction inputs generalizing ms lc fc with
  | nil => simp
  | cons inp rest ih =>
    simp only [List.foldl_cons, List.flatMap_cons]
    have hd := (LoadModFromFile_characterization ms inp).1
    rcases hok : (LoadModFromFile ms inp).1 with _ | _ <;>
      simp [loadStep, hok, hd, ih, List.append_assoc]

/-- C6 counterexample: a module file that loads (LoadLibraryA succeeds)
but whose Start hook raises is reported as a failed load
(mod_loader.cpp:302-308 returns false), yet its ModuleRecord — appended
by `mods.emplace_back(hModule)` at mod_loader.cpp:264 before Start runs —
stays in the registry: the registry does not contain records exactly for
successfully loaded modules. -/
theorem C6_start_failure_leaves_record :
    ((LoadModFromFile [] ⟨true, false, true, 1, some false, none, none, none, none⟩).1
      = false) ∧
    ((LoadModFromFile [] ⟨true, false, true, 1, some false, none, none, none, none⟩).2.1
      = [bindModItem ⟨true, false, true, 1, some false, none, none, none, none⟩]) := by
  exact ⟨rfl, rfl⟩

/-- C6 amended: a load that fails before LoadLibraryA succeeds leaves no
record behind, and a successful load appends exactly one record; but a
load whose Start hook raises is reported as failed while its record
remains in the registry.  Each load attempt is independent: LoadMods
over any input sequence yields exactly the concatenation of each
input's own records, so one module's failure affects only that
module. -/
theorem C6_registry_membership (mods : List ModItem) (inp : LoadInput)
    (inputs : List LoadInput) :
    ((LoadModFromFile mods inp).2.1 =
      mods ++ (if loadRecordKept inp then [bindModItem inp] else [])) ∧
    ((LoadModFromFile mods inp).1 = true ↔
      (loadRecordKept inp = true ∧ inp.start ≠ some false)) ∧
    ((LoadMods [] true inputs).1 =
      inputs.flatMap (fun j => if loadRecordKept j then [bindModItem j] else [])) := by
  refine ⟨(LoadModFromFile_characterization mods inp).1,
    (LoadModFromFile_characterization mods inp).2, ?_⟩
  simpa [LoadMods] using foldl_loadStep inputs [] 0 0

/-- C7: for an in-bounds index, EnableMod invokes the onEnable hook
exactly when it is present (also when the module is already enabled) and
sets the enabled flag whether or not the hook is present; DisableMod is
symmetric with onDisable and `enabled := false`.  The hooks are assumed
to return normally (the raising case is the subject of the C10
theorem). -/
theorem C7_enable_disable_semantics (mods : List ModItem) (i : Nat) (item : ModItem)
    (hget : mods.get? i = some item)
    (hE : item.onEnable ≠ some false) (hD : item.onDisable ≠ some false) :
    ((EnableMod mods (i : Int)).1 = mods.set i { item with enabled := true }) ∧
    ((EnableMod mods (i : Int)).2 =
      if item.onEnable.isSome then [ModEvent.callEnable i] else []) ∧
    ((DisableMod mods (i : Int)).1 = mods.set i { item with enabled := false }) ∧
    ((DisableMod mods (i : Int)).2 =
      if item.onDisable.isSome then [ModEvent.callDisable i] else []) := by
  have hlen : i < mods.length := by
    by_contra hc
    rw [List.get?_eq_none.2 (le_of_not_lt hc)] at hget
    exact Option.noConfusion hget
  have hoob : idxOutOfRange mods (i : Int) = false := by
    simp only [idxOutOfRange, Bool.or_eq_false_iff, decide_eq_false_iff_not, not_lt, not_le]
    omega
  rcases hE' : item.onEnable with _ | (_ | _) <;> rcases hD' : item.onDisable with _ | (_ | _) <;>
    simp_all [EnableMod, DisableMod, hoob, hget]

/-- C7 witness: enabling and disabling an already-enabled module with
both hooks present. -/
theorem C7_enable_disable_semantics_witness :
    (EnableMod [⟨0, none, some true, some true, none, none, emptyInfo, true⟩] ((0 : Nat) : Int)).1 =
      [⟨0, none, some true, some true, none, none, emptyInfo, true⟩].set 0
        { (⟨0, none, some true, some true, none, none, emptyInfo, true⟩ : ModItem) with
          enabled := true } :=
  (C7_enable_disable_semantics [⟨0, none, some true, some true, none, none, emptyInfo, true⟩]
    0 ⟨0, none, some true, some true, none, none, emptyInfo, true⟩ rfl
    (by decide) (by decide)).1

/-- C9: every index-taking module-manager operation, given an index
outside the current bounds, logs an error and returns its safe
no-op/empty-result value — empty metadata, no render, unchanged module
list, `false` for the enabled query, the placeholder name, and a failed
reload — leaving the module list unchanged. -/
theorem C9_invalid_index_is_noop (mods : List ModItem) (index : Int)
    (getPathOk : Bool) (reload : LoadInput)
    (h : index < 0 ∨ (mods.length : Int) ≤ index) :
    GetModInfo mods index = (emptyInfo, [ModEvent.errLog]) ∧
    RenderMod mods index = [ModEvent.errLog] ∧
    EnableMod mods index = (mods, [ModEvent.errLog]) ∧
    DisableMod mods index = (mods, [ModEvent.errLog]) ∧
    GetModEnabled mods index = (false, [ModEvent.errLog]) ∧
    GetModName mods index = ("<invalid mod>", [ModEvent.errLog]) ∧
    ReloadMod mods index getPathOk reload = (false, mods, [ModEvent.errLog]) := by
  have hoob : idxOutOfRange mods index = true := by
    simp only [idxOutOfRange, Bool.or_eq_true, decide_eq_true_eq]
    exact h
  simp [GetModInfo, RenderMod, EnableMod, DisableMod, GetModEnabled, GetModName,
    ReloadMod, hoob]

/-- C9 witness: index 3 against an empty module list. -/
theorem C9_invalid_index_is_noop_witness :
    GetModInfo [] 3 = (emptyInfo, [ModEvent.errLog]) :=
  (C9_invalid_index_is_noop [] 3 true ⟨true, false, true, 1, none, none, none, none, none⟩
    (by decide)).1

/-- C10: for an in-bounds index, when the onEnable (resp. onDisable)
hook raises, EnableMod (resp. DisableMod) leaves the module list — in
particular the module's enabled flag — unchanged: the flag assignment
sits after the hook call inside the try block
(mod_loader.cpp:424-426 / 445-447) and the exception is caught before
it executes. -/
theorem C10_hook_exception_preserves_flag (mods : List ModItem) (i : Nat) (item : ModItem)
    (hget : mods.get? i = some item) :
    (item.onEnable = some false →
      EnableMod mods (i : Int) = (mods, [ModEvent.callEnable i, ModEvent.errLog])) ∧
    (item.onDisable = some false →
      DisableMod mods (i : Int) = (mods, [ModEvent.callDisable i, ModEvent.errLog])) := by
  have hlen : i < mods.length := by
    by_contra hc
    rw [List.get?_eq_none.2 (le_of_not_lt hc)] at hget
    exact Option.noConfusion hget
  have hoob : idxOutOfRange mods (i : Int) = false := by
    simp only [idxOutOfRange, Bool.or_eq_false_iff, decide_eq_false_iff_not, not_lt, not_le]
    omega
  have hget' : mods[i]? = some item := by simpa using hget
  constructor <;> intro hhook <;> simp [EnableMod, DisableMod, hoob, hget', hhook]

/-- C10 witness: both hooks raising on a singleton module list. -/
theorem C10_hook_exception_preserves_flag_witness :
    EnableMod [⟨0, none, some false, some false, none, none, emptyInfo, false⟩] ((0 : Nat) : Int) =
      ([⟨0, none, some false, some false, none, none, emptyInfo, false⟩],
        [ModEvent.callEnable 0, ModEvent.errLog]) :=
  (C10_hook_exception_preserves_flag
    [⟨0, none, some false, some false, none, none, emptyInfo, false⟩] 0
    ⟨0, none, some false, some false, none, none, emptyInfo, false⟩ rfl).1 rfl

end SkyLoader
